import Mathlib

/-!
Verification development for the INTENT-ITERATIVE core (amen).

Shallow embedding of the repository's core modules:
  - `src/ir/models.py`        (IR data model, serialization, iteration, approval)
  - `src/parser/dsl_parser.py` (DSL parser over an already-YAML-decoded mapping)
  - `src/planner/simulator.py` (dry-run planner / code generation)
  - `src/executor/runner.py`   (executor gate, artifact writing, docker/local runs)

Python dynamic values are embedded as `PyVal`; Python dicts as ordered
association lists with first-key lookup and in-place update, matching
Python dict semantics for the keys arising here.  Timestamps produced by
`datetime.now()` and fresh uuids are threaded as explicit string
parameters; log lines are modelled by their message text (the source
prepends a wall-clock timestamp, which no claim depends on).
-/

set_option maxHeartbeats 1000000

namespace Amen

/-- Embedded Python value (the fragment used by the repository: `None`,
booleans, ints, strings, lists and string-keyed dicts). -/
inductive PyVal where
  | none
  | bool (b : Bool)
  | int (n : Int)
  | str (s : String)
  | list (xs : List PyVal)
  | dict (kvs : List (String × PyVal))
deriving Inhabited

/-- Python truthiness for `PyVal` (`if not data: ...`). -/
def PyVal.truthy : PyVal → Bool
  | .none => false
  | .bool b => b
  | .int n => n != 0
  | .str s => s ≠ ""
  | .list xs => !xs.isEmpty
  | .dict kvs => !kvs.isEmpty

/-- First-match association lookup, i.e. Python `d[k]` (`none` = `KeyError`). -/
def alookup (kvs : List (String × PyVal)) (k : String) : Option PyVal :=
  match kvs with
  | [] => Option.none
  | (k', v) :: rest => if k' = k then some v else alookup rest k

/-- Python `d.get(k, default)`. -/
def agetD (kvs : List (String × PyVal)) (k : String) (d : PyVal) : PyVal :=
  (alookup kvs k).getD d

/-- Python `d[k] = v` on an insertion-ordered dict: update the first
occurrence in place, else append. -/
def aset (kvs : List (String × PyVal)) (k : String) (v : PyVal) :
    List (String × PyVal) :=
  match kvs with
  | [] => [(k, v)]
  | (k', v') :: rest =>
      if k' = k then (k', v) :: rest else (k', v') :: aset rest k v

/-- Extract a string (`PyVal.str`); other shapes fail. -/
def PyVal.asStr : PyVal → Option String
  | .str s => some s
  | _ => Option.none

/-- Extract an optional string: Python `None` maps to `some none`. -/
def PyVal.asOptStr : PyVal → Option (Option String)
  | .none => some Option.none
  | .str s => some (some s)
  | _ => Option.none

/-- Extract an `Int`. -/
def PyVal.asInt : PyVal → Option Int
  | .int n => some n
  | _ => Option.none

/-- Extract a nonnegative integer as `Nat`. -/
def PyVal.asNat : PyVal → Option Nat
  | .int (Int.ofNat m) => some m
  | _ => Option.none

/-- Extract a `Bool`. -/
def PyVal.asBool : PyVal → Option Bool
  | .bool b => some b
  | _ => Option.none

/-- Extract a list of `PyVal`. -/
def PyVal.asList : PyVal → Option (List PyVal)
  | .list xs => some xs
  | _ => Option.none

/-- Extract a dict. -/
def PyVal.asDict : PyVal → Option (List (String × PyVal))
  | .dict kvs => some kvs
  | _ => Option.none

/-- Map a fallible extractor over a list, failing when any element fails
(Python raising on the first bad element). -/
def mapOpt {α β : Type} (f : α → Option β) : List α → Option (List β)
  | [] => some []
  | a :: t =>
      match f a with
      | some b => (mapOpt f t).map (fun bs => b :: bs)
      | Option.none => Option.none

/-- Extract a list of strings. -/
def PyVal.asStrList (v : PyVal) : Option (List String) :=
  match v with
  | .list xs => mapOpt PyVal.asStr xs
  | _ => Option.none

/-- Extract a list of integers. -/
def PyVal.asIntList (v : PyVal) : Option (List Int) :=
  match v with
  | .list xs => mapOpt PyVal.asInt xs
  | _ => Option.none

/-- Extract a string-to-string mapping. -/
def PyVal.asStrMap (v : PyVal) : Option (List (String × String)) :=
  match v with
  | .dict kvs => mapOpt (fun kv => (PyVal.asStr kv.2).map (fun s => (kv.1, s))) kvs
  | _ => Option.none

/-! ## Enums (`src/ir/models.py`) -/

/-- `ExecutionMode` enum: `DRY_RUN = "dry-run"`, `TRANSACTIONAL = "transactional"`. -/
inductive ExecutionMode where
  | dry_run
  | transactional
deriving DecidableEq, Inhabited

/-- `ExecutionMode.value`. -/
def ExecutionMode.value : ExecutionMode → String
  | .dry_run => "dry-run"
  | .transactional => "transactional"

/-- The `ExecutionMode(s)` constructor call: `none` = `ValueError`. -/
def ExecutionMode.ofValue (s : String) : Option ExecutionMode :=
  if s = "dry-run" then some .dry_run
  else if s = "transactional" then some .transactional
  else Option.none

/-- `RuntimeType` enum: `docker`, `kubernetes`, `local`. -/
inductive RuntimeType where
  | docker
  | kubernetes
  | local
deriving DecidableEq, Inhabited

/-- `RuntimeType.value`. -/
def RuntimeType.value : RuntimeType → String
  | .docker => "docker"
  | .kubernetes => "kubernetes"
  | .local => "local"

/-- The `RuntimeType(s)` constructor call. -/
def RuntimeType.ofValue (s : String) : Option RuntimeType :=
  if s = "docker" then some .docker
  else if s = "kubernetes" then some .kubernetes
  else if s = "local" then some .local
  else Option.none

/-- `ActionType` enum with its six dotted string tokens. -/
inductive ActionType where
  | api_expose
  | db_create
  | db_add_column
  | shell_exec
  | rest_call
  | file_create
deriving DecidableEq, Inhabited

/-- `ActionType.value`. -/
def ActionType.value : ActionType → String
  | .api_expose => "api.expose"
  | .db_create => "db.create"
  | .db_add_column => "db.add_column"
  | .shell_exec => "shell.exec"
  | .rest_call => "rest.call"
  | .file_create => "file.create"

/-- The `ActionType(s)` constructor call. -/
def ActionType.ofValue (s : String) : Option ActionType :=
  if s = "api.expose" then some .api_expose
  else if s = "db.create" then some .db_create
  else if s = "db.add_column" then some .db_add_column
  else if s = "shell.exec" then some .shell_exec
  else if s = "rest.call" then some .rest_call
  else if s = "file.create" then some .file_create
  else Option.none

/-! ## Dataclasses (`src/ir/models.py`) -/

/-- `Action` dataclass: one action in the implementation plan. -/
structure Action where
  type : ActionType
  method : Option String := Option.none
  target : Option String := Option.none
  params : List (String × PyVal) := []
deriving Inhabited

/-- `Action.to_dict`. -/
def Action.to_dict (a : Action) : PyVal :=
  .dict [("type", .str a.type.value),
         ("method", match a.method with | some m => .str m | _ => .none),
         ("target", match a.target with | some t => .str t | _ => .none),
         ("params", .dict a.params)]

/-- `Action.from_dict` (fails where Python would raise `KeyError`/`ValueError`). -/
def Action.from_dict (data : PyVal) : Option Action := do
  let kvs ← data.asDict
  let tyv ← alookup kvs "type"
  let tys ← tyv.asStr
  let ty ← ActionType.ofValue tys
  let m ← (agetD kvs "method" .none).asOptStr
  let t ← (agetD kvs "target" .none).asOptStr
  let ps ← (agetD kvs "params" (.dict [])).asDict
  pure { type := ty, method := m, target := t, params := ps }

/-- `Environment` dataclass: runtime environment configuration. -/
structure Environment where
  runtime : RuntimeType := .docker
  base_image : String := "python:3.12-slim"
  services : List String := []
  ports : List Int := []
  volumes : List String := []
  env_vars : List (String × String) := []
deriving Inhabited

/-- `Environment.to_dict`. -/
def Environment.to_dict (e : Environment) : PyVal :=
  .dict [("runtime", .str e.runtime.value),
         ("base_image", .str e.base_image),
         ("services", .list (e.services.map PyVal.str)),
         ("ports", .list (e.ports.map PyVal.int)),
         ("volumes", .list (e.volumes.map PyVal.str)),
         ("env_vars", .dict (e.env_vars.map (fun kv => (kv.1, PyVal.str kv.2))))]

/-- `Environment.from_dict`. -/
def Environment.from_dict (data : PyVal) : Option Environment := do
  let kvs ← data.asDict
  let rts ← (agetD kvs "runtime" (.str "docker")).asStr
  let rt ← RuntimeType.ofValue rts
  let bi ← (agetD kvs "base_image" (.str "python:3.12-slim")).asStr
  let sv ← (agetD kvs "services" (.list [])).asStrList
  let ps ← (agetD kvs "ports" (.list [])).asIntList
  let vs ← (agetD kvs "volumes" (.list [])).asStrList
  let ev ← (agetD kvs "env_vars" (.dict [])).asStrMap
  pure { runtime := rt, base_image := bi, services := sv, ports := ps,
         volumes := vs, env_vars := ev }

/-- `Implementation` dataclass. -/
structure Implementation where
  language : String := "python"
  framework : Option String := Option.none
  actions : List Action := []
deriving Inhabited

/-- `Implementation.to_dict`. -/
def Implementation.to_dict (i : Implementation) : PyVal :=
  .dict [("language", .str i.language),
         ("framework", match i.framework with | some f => .str f | _ => .none),
         ("actions", .list (i.actions.map Action.to_dict))]

/-- `Implementation.from_dict`. -/
def Implementation.from_dict (data : PyVal) : Option Implementation := do
  let kvs ← data.asDict
  let lang ← (agetD kvs "language" (.str "python")).asStr
  let fw ← (agetD kvs "framework" .none).asOptStr
  let al ← (agetD kvs "actions" (.list [])).asList
  let acts ← mapOpt Action.from_dict al
  pure { language := lang, framework := fw, actions := acts }

/-- `Intent` dataclass: name, goal, optional description. -/
structure Intent where
  name : String
  goal : String
  description : Option String := Option.none
deriving Inhabited

/-- `Intent.to_dict`. -/
def Intent.to_dict (i : Intent) : PyVal :=
  .dict [("name", .str i.name),
         ("goal", .str i.goal),
         ("description", match i.description with | some d => .str d | _ => .none)]

/-- `Intent.from_dict` (`data["name"]` / `data["goal"]` raise on absence). -/
def Intent.from_dict (data : PyVal) : Option Intent := do
  let kvs ← data.asDict
  let nv ← alookup kvs "name"
  let n ← nv.asStr
  let gv ← alookup kvs "goal"
  let g ← gv.asStr
  let d ← (agetD kvs "description" .none).asOptStr
  pure { name := n, goal := g, description := d }

/-- `IntentIR` dataclass: the root aggregate. -/
structure IntentIR where
  id : String
  version : Nat := 1
  created_at : String
  updated_at : String
  intent : Intent := { name := "", goal := "" }
  environment : Environment := {}
  implementation : Implementation := {}
  execution_mode : ExecutionMode := .dry_run
  amen_approved : Bool := false
  iteration_count : Nat := 0
  iteration_history : List PyVal := []
  generated_code : Option String := Option.none
  dockerfile : Option String := Option.none
  dry_run_logs : List String := []
deriving Inhabited

/-- The `IntentIR()` default constructor; the fresh uuid-derived `id` and the
`datetime.now()` timestamps are threaded in as parameters. -/
def IntentIR.mkFresh (freshId now : String) : IntentIR :=
  { id := freshId, created_at := now, updated_at := now }

/-- `IntentIR.to_dict`. -/
def IntentIR.to_dict (ir : IntentIR) : PyVal :=
  .dict [("id", .str ir.id),
         ("version", .int ir.version),
         ("created_at", .str ir.created_at),
         ("updated_at", .str ir.updated_at),
         ("intent", ir.intent.to_dict),
         ("environment", ir.environment.to_dict),
         ("implementation", ir.implementation.to_dict),
         ("execution_mode", .str ir.execution_mode.value),
         ("amen_approved", .bool ir.amen_approved),
         ("iteration_count", .int ir.iteration_count),
         ("iteration_history", .list ir.iteration_history),
         ("generated_code", match ir.generated_code with | some s => .str s | _ => .none),
         ("dockerfile", match ir.dockerfile with | some s => .str s | _ => .none),
         ("dry_run_logs", .list (ir.dry_run_logs.map PyVal.str))]

/-- `IntentIR.from_dict`; defaults for the fresh id and timestamps are
threaded in as parameters. -/
def IntentIR.from_dict (freshId now : String) (data : PyVal) : Option IntentIR := do
  let kvs ← data.asDict
  let i ← (agetD kvs "id" (.str freshId)).asStr
  let v ← (agetD kvs "version" (.int 1)).asNat
  let ca ← (agetD kvs "created_at" (.str now)).asStr
  let ua ← (agetD kvs "updated_at" (.str now)).asStr
  let it ← Intent.from_dict (agetD kvs "intent" (.dict []))
  let env ← Environment.from_dict (agetD kvs "environment" (.dict []))
  let impl ← Implementation.from_dict (agetD kvs "implementation" (.dict []))
  let ems ← (agetD kvs "execution_mode" (.str "dry-run")).asStr
  let em ← ExecutionMode.ofValue ems
  let ap ← (agetD kvs "amen_approved" (.bool false)).asBool
  let ic ← (agetD kvs "iteration_count" (.int 0)).asNat
  let ih ← (agetD kvs "iteration_history" (.list [])).asList
  let gc ← (agetD kvs "generated_code" .none).asOptStr
  let df ← (agetD kvs "dockerfile" .none).asOptStr
  let dl ← (agetD kvs "dry_run_logs" (.list [])).asStrList
  pure { id := i, version := v, created_at := ca, updated_at := ua,
         intent := it, environment := env, implementation := impl,
         execution_mode := em, amen_approved := ap, iteration_count := ic,
         iteration_history := ih, generated_code := gc, dockerfile := df,
         dry_run_logs := dl }

/-- `IntentIR.add_iteration`: increment the counter, refresh `updated_at`,
append a history record. -/
def IntentIR.add_iteration (ir : IntentIR) (changes : PyVal)
    (source : String) (now : String) : IntentIR :=
  let c := ir.iteration_count + 1
  { ir with
    iteration_count := c
    updated_at := now
    iteration_history := ir.iteration_history ++
      [.dict [("iteration", .int c), ("timestamp", .str now),
              ("source", .str source), ("changes", changes)]] }

/-- `IntentIR.approve_amen`: set the approval flag, switch to transactional
mode, refresh `updated_at`. -/
def IntentIR.approve_amen (ir : IntentIR) (now : String) : IntentIR :=
  { ir with amen_approved := true, execution_mode := .transactional,
            updated_at := now }

/-! ## Python string helpers (ASCII model of `str` methods and `re`'s
character classes) -/

/-- Python `\s` over ASCII: space, tab, newline, carriage return, vertical
tab, form feed. -/
def pySpace (c : Char) : Bool :=
  c = ' ' || c = '\t' || c = '\n' || c = '\r' || c = '\x0b' || c = '\x0c'

/-- The character class `[\w.]` of `ACTION_PATTERN` (ASCII model of `\w`). -/
def wordDot (c : Char) : Bool :=
  c.isAlphanum || c = '_' || c = '.'

/-- Python `str.strip()` (no argument): remove leading and trailing
whitespace. -/
def pyStrip (s : String) : String :=
  (((s.toList.dropWhile pySpace).reverse.dropWhile pySpace).reverse).asString

/-- Python `str.split()` (no argument): split on whitespace runs,
discarding empty fields. -/
def wsSplit (s : String) : List String :=
  go s.toList []
where
  /-- Accumulate the current token (reversed) while scanning. -/
  go : List Char → List Char → List String
  | [], [] => []
  | [], acc => [acc.reverse.asString]
  | c :: rest, acc =>
      if pySpace c then
        if acc.isEmpty then go rest [] else acc.reverse.asString :: go rest []
      else go rest (c :: acc)

/-- `needle` occurs at the head of `hay`. -/
def takesAhead (needle hay : List Char) : Bool :=
  match needle, hay with
  | [], _ => true
  | _ :: _, [] => false
  | a :: as, b :: bs => a = b && takesAhead as bs

/-- Python `needle in hay` on strings (substring containment), char-list form. -/
def hasSub (needle hay : List Char) : Bool :=
  match hay with
  | [] => needle.isEmpty
  | _ :: t => takesAhead needle hay || hasSub needle t

mutual

/-- Python `repr` of the embedded value fragment (used by `str(dict)` in the
parser's root-parameter check). -/
def pyRepr : PyVal → String
  | .none => "None"
  | .bool true => "True"
  | .bool false => "False"
  | .int n => toString n
  | .str s => "'" ++ s ++ "'"
  | .list xs => "[" ++ String.intercalate ", " (pyReprList xs) ++ "]"
  | .dict kvs => "\x7b" ++ String.intercalate ", " (pyReprPairs kvs) ++ "\x7d"

/-- `repr` of each element of a list value. -/
def pyReprList : List PyVal → List String
  | [] => []
  | v :: t => pyRepr v :: pyReprList t

/-- `repr` of each `key: value` entry of a dict value. -/
def pyReprPairs : List (String × PyVal) → List String
  | [] => []
  | (k, v) :: t => ("'" ++ k ++ "': " ++ pyRepr v) :: pyReprPairs t

end

/-- Python `str()` of the embedded value fragment: strings unquoted,
containers via `repr`. -/
def pyStr : PyVal → String
  | .str s => s
  | v => pyRepr v

/-- A `PyVal` stored into an `Optional[str]` slot, rendered lossily:
`None` stays absent, anything else is kept as its `str()` form. -/
def PyVal.optStrLossy : PyVal → Option String
  | .none => Option.none
  | v => some (pyStr v)

/-- A `PyVal` expected to be a list of strings (non-strings dropped; the
source stores the raw YAML list unchecked). -/
def PyVal.strListLossy (v : PyVal) : List String :=
  ((v.asList).getD []).filterMap PyVal.asStr

/-- A `PyVal` expected to be a list of integers (non-ints dropped). -/
def PyVal.intListLossy (v : PyVal) : List Int :=
  ((v.asList).getD []).filterMap PyVal.asInt

/-- A `PyVal` expected to be a string-to-string mapping (other entries
dropped). -/
def PyVal.strMapLossy (v : PyVal) : List (String × String) :=
  ((v.asDict).getD []).filterMap
    (fun kv => (PyVal.asStr kv.2).map (fun s => (kv.1, s)))

/-! ## `ACTION_PATTERN` (`src/parser/dsl_parser.py`, lines 62–67)

The regex
`^(?P<type>[\w.]+)\s+(?:(?P<method>GET|POST|PUT|DELETE|PATCH)\s+)?(?P<target>\S+)(?:\s+(?P<params>.+))?$`
is embedded as a direct matcher.  All `+`-repetitions over `[\w.]`/`\s`/`\S`
are maximal-munch here; this is faithful because each repetition's class is
disjoint from every character that can legally follow it, so the
backtracking engine can never succeed with a shorter run.  The only place
genuine backtracking occurs is the trailing `(?:\s+(?P<params>.+))?`
(`\s` and `.` overlap): `findParamsSplit` searches the split points from the
greedy-longest `\s+` run downwards, exactly as the engine does. -/

/-- The captured groups of a successful `ACTION_PATTERN` match. -/
structure ActionMatch where
  type : String
  method : Option String
  target : String
  params : Option String
deriving Inhabited

/-- Backtracking search for the `\s+` / `.+` boundary of the optional
params group: try consuming `k` whitespace chars, largest first; `.+` must
then cover the whole remainder, which must be nonempty and `'\n'`-free. -/
def findParamsSplit (r : List Char) : Nat → Option String
  | 0 => Option.none
  | k + 1 =>
      let rest := r.drop (k + 1)
      if !rest.isEmpty && !rest.contains '\n' then some rest.asString
      else findParamsSplit r k

/-- Match the optional `(?:\s+(?P<params>.+))?$` suffix against a nonempty
remainder: `none` means the whole match fails (`$` unreachable). -/
def optParams (r : List Char) : Option String :=
  findParamsSplit r (r.takeWhile pySpace).length

/-- Match `(?P<target>\S+)(?:\s+(?P<params>.+))?$`. -/
def tryTail (cs : List Char) : Option (String × Option String) :=
  let tgt := cs.takeWhile (fun c => !pySpace c)
  if tgt.isEmpty then Option.none
  else
    let r := cs.drop tgt.length
    if r.isEmpty then some (tgt.asString, Option.none)
    else
      match optParams r with
      | some ps => some (tgt.asString, some ps)
      | Option.none => Option.none

/-- The five HTTP verbs of the method alternation, in source order. -/
def httpVerbs : List String := ["GET", "POST", "PUT", "DELETE", "PATCH"]

/-- Try the alternatives of `(?:(GET|POST|PUT|DELETE|PATCH)\s+)?` followed by
the tail; falls through to the next alternative when the verb, its trailing
whitespace, or the rest of the pattern fails. -/
def methodBranch (cs : List Char) : List String → Option (String × String × Option String)
  | [] => Option.none
  | v :: more =>
      let vl := v.toList
      if cs.take vl.length = vl then
        let afterV := cs.drop vl.length
        let w := afterV.takeWhile pySpace
        if w.isEmpty then methodBranch cs more
        else
          match tryTail (afterV.drop w.length) with
          | some (t, ps) => some (v, t, ps)
          | Option.none => methodBranch cs more
      else methodBranch cs more

/-- `ACTION_PATTERN.match(s)`. -/
def actionPatternMatch (s : String) : Option ActionMatch :=
  let cs := s.toList
  let ty := cs.takeWhile wordDot
  if ty.isEmpty then Option.none
  else
    let r1 := cs.drop ty.length
    let w1 := r1.takeWhile pySpace
    if w1.isEmpty then Option.none
    else
      let r2 := r1.drop w1.length
      match methodBranch r2 httpVerbs with
      | some (v, t, ps) =>
          some { type := ty.asString, method := some v, target := t, params := ps }
      | Option.none =>
          match tryTail r2 with
          | some (t, ps) =>
              some { type := ty.asString, method := Option.none, target := t, params := ps }
          | Option.none => Option.none

/-! ## DSL parser (`src/parser/dsl_parser.py`)

`DSLParser.parse` is embedded from the point after `yaml.safe_load`
succeeded and produced a top-level mapping (the document shape every claim
concerns); the mapping is the `doc` argument.  Fatal errors and non-fatal
warnings are accumulated in the source's append order; the returned
`ValidationError` carries exactly the error list. -/

/-- The two exception kinds raised by `DSLParser.parse`. -/
inductive DSLError where
  | parseError (message : String)
  | validationError (errors : List String)
deriving Inhabited

/-- Python `part.split("=", 1)` as the pair (before, after): scan to the
first `'='`; when none occurs the whole string is the first component. -/
def pySplitEq1 (s : String) : String × String :=
  go s.toList []
where
  /-- Scan for the first `'='`, accumulating the key reversed. -/
  go : List Char → List Char → String × String
  | [], acc => (acc.reverse.asString, "")
  | c :: rest, acc =>
      if c = '=' then (acc.reverse.asString, rest.asString) else go rest (c :: acc)

/-- The params loop of `DSLParser._parse_action` (lines 205–214): split the
captured params text on whitespace; `k=v` tokens bind `k` to the string
after the first `'='`, tokens without `'='` bind themselves to `True`. -/
def paramsOfStr (ps : String) : List (String × PyVal) :=
  (wsSplit ps).foldl
    (fun m part =>
      if hasSub ['='] part.toList then
        let kv := pySplitEq1 part
        aset m kv.1 (.str kv.2)
      else aset m part (.bool true))
    []

/-- `DSLParser._parse_action`: returns the parsed action (or `none`) and
the fatal errors it appended. -/
def parse_action (v : PyVal) : Option Action × List String :=
  match v with
  | .dict kvs =>
      let tyv := agetD kvs "type" (.str "")
      match (match tyv with | .str s => ActionType.ofValue s | _ => Option.none) with
      | some ty =>
          (some { type := ty,
                  method := (agetD kvs "method" .none).optStrLossy,
                  target := (agetD kvs "target" .none).optStrLossy,
                  params := ((agetD kvs "params" (.dict [])).asDict).getD [] }, [])
      | Option.none =>
          (Option.none,
           ["Invalid action type: " ++ pyRepr tyv ++ " is not a valid ActionType"])
  | _ =>
      let s0 := pyStr v
      match actionPatternMatch (pyStrip s0) with
      | Option.none => (Option.none, ["Invalid action format: '" ++ s0 ++ "'"])
      | some m =>
          match ActionType.ofValue m.type with
          | Option.none => (Option.none, ["Unknown action type: '" ++ m.type ++ "'"])
          | some ty =>
              let params := match m.params with
                | some ps => paramsOfStr ps
                | Option.none => []
              (some { type := ty, method := m.method, target := some m.target,
                      params := params }, [])

/-- `DSLParser._parse_intent`: the intent plus appended fatal errors. -/
def parse_intent (v : PyVal) : Intent × List String :=
  match v.asDict with
  | Option.none => ({ name := "", goal := "" }, ["INTENT must be a dictionary"])
  | some kvs =>
      let nameV := agetD kvs "name" (.str "")
      let goalV := agetD kvs "goal" (.str "")
      let errs :=
        (if nameV.truthy then [] else ["INTENT.name is required"]) ++
        (if goalV.truthy then [] else ["INTENT.goal is required"])
      ({ name := pyStr nameV, goal := pyStr goalV,
         description := (agetD kvs "description" .none).optStrLossy }, errs)

/-- `DSLParser._parse_environment`: the environment, fatal errors, warnings. -/
def parse_environment (v : PyVal) : Environment × List String × List String :=
  match v.asDict with
  | Option.none => ({}, ["ENVIRONMENT must be a dictionary"], [])
  | some kvs =>
      let rtv := agetD kvs "runtime" (.str "docker")
      let rtw :=
        match (match rtv with | .str s => RuntimeType.ofValue s | _ => Option.none) with
        | some rt => (rt, ([] : List String))
        | Option.none =>
            (.docker, ["Unknown runtime '" ++ pyStr rtv ++ "', defaulting to docker"])
      ({ runtime := rtw.1,
         base_image := pyStr (agetD kvs "base_image" (.str "python:3.12-slim")),
         services := (agetD kvs "services" (.list [])).strListLossy,
         ports := (agetD kvs "ports" (.list [])).intListLossy,
         volumes := (agetD kvs "volumes" (.list [])).strListLossy,
         env_vars := (agetD kvs "env_vars" (.dict [])).strMapLossy }, [], rtw.2)

/-- `DSLParser._parse_implementation`: the implementation plus appended
fatal errors (dict-shape error or per-action errors, in order). -/
def parse_implementation (v : PyVal) : Implementation × List String :=
  match v.asDict with
  | Option.none => ({}, ["IMPLEMENTATION must be a dictionary"])
  | some kvs =>
      let al := ((agetD kvs "actions" (.list [])).asList).getD []
      let folded := al.foldl
        (fun (acc : List Action × List String) av =>
          let ae := parse_action av
          (acc.1 ++ (match ae.1 with | some a => [a] | _ => []), acc.2 ++ ae.2))
        ([], [])
      ({ language := pyStr (agetD kvs "language" (.str "python")),
         framework := (agetD kvs "framework" .none).optStrLossy,
         actions := folded.1 }, folded.2)

/-- `DSLParser._parse_execution`: the execution mode, fatal errors, warnings. -/
def parse_execution (v : PyVal) : ExecutionMode × List String × List String :=
  match v.asDict with
  | Option.none => (.dry_run, ["EXECUTION must be a dictionary"], [])
  | some kvs =>
      let mv := agetD kvs "mode" (.str "dry-run")
      match (match mv with | .str s => ExecutionMode.ofValue s | _ => Option.none) with
      | some m => (m, [], [])
      | Option.none =>
          (.dry_run, [],
           ["Unknown execution mode '" ++ pyStr mv ++ "', defaulting to dry-run"])

/-- `DSLParser._validate`: fatal framework/language compatibility errors and
the non-fatal root-shell warnings. -/
def validateIR (ir : IntentIR) : List String × List String :=
  let rootWarns := ir.implementation.actions.foldl
    (fun ws a =>
      if a.type = ActionType.shell_exec &&
         hasSub "root".toList ((pyRepr (.dict a.params)).toLower).toList then
        ws ++ ["Action '" ++ (match a.target with | some t => t | _ => "None") ++
               "' may run as root - review carefully"]
      else ws) []
  let e1 := if ir.implementation.framework = some "fastapi" ∧
               ir.implementation.language ≠ "python"
            then ["FastAPI requires Python language"] else []
  let e2 := if ir.implementation.framework = some "express" ∧
               ir.implementation.language ≠ "node"
            then ["Express requires Node.js language"] else []
  (e1 ++ e2, rootWarns)

/-- `DSLParser.parse` on a YAML-decoded top-level mapping `doc`; the fresh
id and `datetime.now()` readings of the constructed `IntentIR` are the
`freshId`/`now` parameters.  Warnings are accumulated by the section
parsers but (as in the source) do not affect the returned value. -/
def DSLParser.parse (freshId now : String) (doc : List (String × PyVal)) :
    Except DSLError IntentIR :=
  if doc.isEmpty then .error (.parseError "Empty DSL content")
  else
    let ir0 := IntentIR.mkFresh freshId now
    let ie :=
      match alookup doc "INTENT" with
      | some v => parse_intent v
      | Option.none => (ir0.intent, ["Missing required section: INTENT"])
    let ee :=
      match alookup doc "ENVIRONMENT" with
      | some v => parse_environment v
      | Option.none => (ir0.environment, [], [])
    let pe :=
      match alookup doc "IMPLEMENTATION" with
      | some v => parse_implementation v
      | Option.none => (ir0.implementation, [])
    let xe :=
      match alookup doc "EXECUTION" with
      | some v => parse_execution v
      | Option.none => (ir0.execution_mode, [], [])
    let ir := { ir0 with intent := ie.1, environment := ee.1,
                         implementation := pe.1, execution_mode := xe.1 }
    let ve := validateIR ir
    let errors := ie.2 ++ ee.2.1 ++ pe.2 ++ xe.2.1 ++ ve.1
    if errors.isEmpty then .ok ir else .error (.validationError errors)

/-! ## Planner / simulator (`src/planner/simulator.py`)

Log lines are modelled by their message text (the source prefixes a
wall-clock timestamp). -/

/-- `DryRunResult`: mutable result record of a dry-run. -/
structure DryRunResult where
  success : Bool := true
  logs : List String := []
  generated_code : String := ""
  dockerfile : String := ""
  warnings : List String := []
  estimated_resources : List (String × String) := []
deriving Inhabited

/-- `DryRunResult.add_log`. -/
def DryRunResult.add_log (r : DryRunResult) (m : String) : DryRunResult :=
  { r with logs := r.logs ++ [m] }

/-- Python truthiness of an `Optional[str]` field (`None` and `""` falsy). -/
def optStrTruthy : Option String → Bool
  | some s => s ≠ ""
  | Option.none => false

/-- Python f-string rendering of an `Optional[str]` (`None` prints `None`). -/
def optStrShow : Option String → String
  | some s => s
  | Option.none => "None"

/-- `endpoint.replace("/", "_").strip("_") or "root"` — the deterministic
route-handler name derivation. -/
def funcNameOf (endpoint : String) : String :=
  let replaced := endpoint.map (fun c => if c = '/' then '_' else c)
  let stripped :=
    (((replaced.toList.dropWhile (· = '_')).reverse.dropWhile (· = '_')).reverse).asString
  if stripped = "" then "root" else stripped

/-- `Planner._generate_fastapi_code`. -/
def generate_fastapi_code (ir : IntentIR) : String :=
  let imports :=
    ["from fastapi import FastAPI, HTTPException",
     "from pydantic import BaseModel",
     "from typing import Optional, List",
     "import uvicorn"]
  let hdr := imports ++
    ["",
     "app = FastAPI(title=\"" ++ ir.intent.name ++ "\", description=\"" ++
       ir.intent.goal ++ "\")",
     ""]
  let eps := ir.implementation.actions.foldl
    (fun ls a =>
      if a.type = ActionType.api_expose then
        let m := (match a.method with
          | some s => if s = "" then "GET" else s
          | Option.none => "GET").toLower
        let ep := match a.target with
          | some s => if s = "" then "/" else s
          | Option.none => "/"
        ls ++
          ["@app." ++ m ++ "(\"" ++ ep ++ "\")",
           "async def " ++ funcNameOf ep ++ "():",
           "    \"\"\"Auto-generated endpoint for " ++ ep ++ "\"\"\"",
           "    return \x7b\"status\": \"ok\", \"endpoint\": \"" ++ ep ++
             "\", \"method\": \"" ++ m.toUpper ++ "\"\x7d",
           ""]
      else ls) []
  let tl :=
    ["",
     "if __name__ == \"__main__\":",
     "    uvicorn.run(app, host=\"0.0.0.0\", port=8000)"]
  String.intercalate "\n" (hdr ++ eps ++ tl)

/-- `Planner._generate_flask_code`. -/
def generate_flask_code (ir : IntentIR) : String :=
  let hdr := ["from flask import Flask, jsonify, request", "", "app = Flask(__name__)", ""]
  let eps := ir.implementation.actions.foldl
    (fun ls a =>
      if a.type = ActionType.api_expose then
        let m := match a.method with
          | some s => if s = "" then "GET" else s
          | Option.none => "GET"
        let ep := match a.target with
          | some s => if s = "" then "/" else s
          | Option.none => "/"
        ls ++
          ["@app.route(\"" ++ ep ++ "\", methods=[\"" ++ m ++ "\"])",
           "def " ++ funcNameOf ep ++ "():",
           "    return jsonify(\x7b\"status\": \"ok\", \"endpoint\": \"" ++ ep ++ "\"\x7d)",
           ""]
      else ls) []
  let tl := ["if __name__ == \"__main__\":", "    app.run(host=\"0.0.0.0\", port=8000)"]
  String.intercalate "\n" (hdr ++ eps ++ tl)

/-- `Planner._generate_basic_python_code`: the minimal placeholder script
(used for a *supported* language with an unrecognized framework). -/
def generate_basic_python_code (ir : IntentIR) : String :=
  "#!/usr/bin/env python3\n\"\"\"\nAuto-generated script for: " ++ ir.intent.name ++
  "\nGoal: " ++ ir.intent.goal ++
  "\n\"\"\"\n\ndef main():\n    print(\"Intent: " ++ ir.intent.name ++
  "\")\n    print(\"Goal: " ++ ir.intent.goal ++
  "\")\n    # TODO: Implement actions\n    \nif __name__ == \"__main__\":\n    main()\n"

/-- `Planner._generate_python_code`: framework dispatch within python. -/
def generate_python_code (ir : IntentIR) : String :=
  if ir.implementation.framework = some "fastapi" then generate_fastapi_code ir
  else if ir.implementation.framework = some "flask" then generate_flask_code ir
  else generate_basic_python_code ir

/-- `Planner._generate_express_code`. -/
def generate_express_code (ir : IntentIR) : String :=
  let hdr := ["const express = require('express');", "const app = express();", "",
              "app.use(express.json());", ""]
  let eps := ir.implementation.actions.foldl
    (fun ls a =>
      if a.type = ActionType.api_expose then
        let m := (match a.method with
          | some s => if s = "" then "GET" else s
          | Option.none => "GET").toLower
        let ep := match a.target with
          | some s => if s = "" then "/" else s
          | Option.none => "/"
        ls ++
          ["app." ++ m ++ "('" ++ ep ++ "', (req, res) => \x7b",
           "    res.json(\x7b status: 'ok', endpoint: '" ++ ep ++ "', method: '" ++
             m.toUpper ++ "' \x7d);",
           "\x7d);",
           ""]
      else ls) []
  let tl := ["const PORT = process.env.PORT || 8000;",
             "app.listen(PORT, () => \x7b",
             "    console.log(`" ++ ir.intent.name ++ " running on port $\x7bPORT\x7d`);",
             "\x7d);"]
  String.intercalate "\n" (hdr ++ eps ++ tl)

/-- `Planner._generate_basic_node_code`. -/
def generate_basic_node_code (ir : IntentIR) : String :=
  "// Auto-generated script for: " ++ ir.intent.name ++
  "\n// Goal: " ++ ir.intent.goal ++
  "\n\nconsole.log(\"Intent: " ++ ir.intent.name ++
  "\");\nconsole.log(\"Goal: " ++ ir.intent.goal ++
  "\");\n// TODO: Implement actions\n"

/-- `Planner._generate_node_code`: framework dispatch within node. -/
def generate_node_code (ir : IntentIR) : String :=
  if ir.implementation.framework = some "express" then generate_express_code ir
  else generate_basic_node_code ir

/-- The `Planner.code_generators` table lookup: `python` and `node` are the
only keys. -/
def codeGeneratorFor (lang : String) : Option (IntentIR → String) :=
  if lang = "python" then some generate_python_code
  else if lang = "node" then some generate_node_code
  else Option.none

/-- `list.insert(-2, x)`: insert before the second-to-last element
(Python clamps the negative index at 0 for short lists, as does `Nat`
subtraction here). -/
def insertNeg2 (l : List String) (x : String) : List String :=
  l.take (l.length - 2) ++ x :: l.drop (l.length - 2)

/-- The `deps` local of the python branch of `Planner._generate_dockerfile`:
`uvicorn` for fastapi, plus the framework name itself when non-empty. -/
def dockerfile_deps (ir : IntentIR) : List String :=
  (if ir.implementation.framework = some "fastapi" then ["uvicorn"] else []) ++
  (match ir.implementation.framework with
   | some f => if f = "" then [] else [f]
   | Option.none => [])

/-- The `lines` local of `Planner._generate_dockerfile` as it stands just
before the environment-ports loop: preamble plus the language-specific
install/copy/expose/entry directives. -/
def dockerfile_pre_ports_lines (ir : IntentIR) : List String :=
  let lang := ir.implementation.language
  let base :=
    ["# Auto-generated Dockerfile for: " ++ ir.intent.name,
     "FROM " ++ ir.environment.base_image,
     "",
     "WORKDIR /app",
     ""]
  if lang = "python" then
    base ++
      (if (dockerfile_deps ir).isEmpty then []
       else ["RUN pip install --no-cache-dir " ++
               String.intercalate " " (dockerfile_deps ir), ""]) ++
      ["COPY app.py .", "", "EXPOSE 8000", "", "CMD [\"python\", \"app.py\"]"]
  else if lang = "node" then
    base ++
      ["COPY package*.json ./", "RUN npm install", "", "COPY . .", "",
       "EXPOSE 8000", "", "CMD [\"node\", \"app.js\"]"]
  else base

/-- `Planner._generate_dockerfile`, as its list of lines (the source builds
this list and joins it with newlines): the pre-ports lines with one
`lines.insert(-2, "EXPOSE {port}")` per environment port other than 8000. -/
def generate_dockerfile_lines (ir : IntentIR) : List String :=
  ir.environment.ports.foldl
    (fun ls p => if p ≠ 8000 then insertNeg2 ls ("EXPOSE " ++ toString p) else ls)
    (dockerfile_pre_ports_lines ir)

/-- `Planner._generate_dockerfile`. -/
def generate_dockerfile (ir : IntentIR) : String :=
  String.intercalate "\n" (generate_dockerfile_lines ir)

/-- `Planner._simulate_action`: the one or two log lines and the possible
warning appended for one action. -/
def simulate_action (a : Action) (r : DryRunResult) : DryRunResult :=
  let astr := a.type.value ++
    (match a.method with
     | some m => if m = "" then "" else " " ++ m
     | Option.none => "") ++
    (match a.target with
     | some t => if t = "" then "" else " " ++ t
     | Option.none => "")
  let r := r.add_log ("  → Simulating: " ++ astr)
  match a.type with
  | .api_expose =>
      r.add_log ("    ✓ Would expose endpoint: " ++ optStrShow a.method ++ " " ++
                 optStrShow a.target)
  | .db_create => r.add_log ("    ✓ Would create table: " ++ optStrShow a.target)
  | .db_add_column => r.add_log ("    ✓ Would add column to: " ++ optStrShow a.target)
  | .shell_exec =>
      let r := r.add_log ("    ⚠ Would execute shell command: " ++ optStrShow a.target)
      { r with warnings := r.warnings ++
          ["Shell execution planned: " ++ optStrShow a.target] }
  | .rest_call =>
      r.add_log ("    ✓ Would call: " ++ optStrShow a.method ++ " " ++
                 optStrShow a.target)
  | .file_create => r.add_log ("    ✓ Would create file: " ++ optStrShow a.target)

/-- `Planner._estimate_resources`. -/
def estimate_resources (ir : IntentIR) : List (String × String) :=
  let lang := ir.implementation.language
  let baseMem := if lang = "python" then "256MB"
                 else if lang = "node" then "128MB"
                 else "256MB"
  let memory := if ir.implementation.framework = some "fastapi" ∨
                   ir.implementation.framework = some "django"
                then "512MB" else baseMem
  [("memory", memory), ("cpu", "0.5"),
   ("estimated_build_time", "30s"), ("estimated_startup_time", "5s")]

/-- `Planner.dry_run`: returns the result record and the IR as updated in
place by the source (`dry_run_logs`, `generated_code`, `dockerfile`). -/
def Planner.dry_run (ir : IntentIR) : DryRunResult × IntentIR :=
  let r : DryRunResult := {}
  let r := r.add_log ("Starting dry-run for intent: " ++ ir.intent.name)
  let r := r.add_log ("Goal: " ++ ir.intent.goal)
  let lang := ir.implementation.language
  let r :=
    match codeGeneratorFor lang with
    | some gen =>
        let r := r.add_log ("Generating " ++ lang ++ " code...")
        let code := gen ir
        let r := { r with generated_code := code }
        let n := code.length
        r.add_log ("Generated " ++ toString n ++ " bytes of code")
    | Option.none =>
        { r with warnings := r.warnings ++ ["No code generator for language: " ++ lang] }
  let r :=
    if ir.environment.runtime = RuntimeType.docker then
      let r := r.add_log "Generating Dockerfile..."
      let r := { r with dockerfile := generate_dockerfile ir }
      r.add_log "Dockerfile generated"
    else r
  let r := r.add_log "Simulating actions..."
  let r := ir.implementation.actions.foldl (fun r a => simulate_action a r) r
  let r := { r with estimated_resources := estimate_resources ir }
  let mem := (alookupStr r.estimated_resources "memory").getD "N/A"
  let cpu := (alookupStr r.estimated_resources "cpu").getD "N/A"
  let r := r.add_log ("Estimated memory: " ++ mem)
  let r := r.add_log ("Estimated CPU: " ++ cpu)
  let r := r.add_log "Dry-run completed successfully"
  let ir := { ir with dry_run_logs := r.logs,
                      generated_code := some r.generated_code,
                      dockerfile := some r.dockerfile }
  (r, ir)
where
  /-- `dict.get` over the string-valued resource mapping. -/
  alookupStr (kvs : List (String × String)) (k : String) : Option String :=
    match kvs with
    | [] => Option.none
    | (k', v) :: rest => if k' = k then some v else alookupStr rest k

/-! ## Executor (`src/executor/runner.py`)

External effects are threaded explicitly: TCP bind availability is an
oracle `avail : Int → Bool`; the `docker build` / `docker run` subprocess
outcomes are oracle fields; filesystem writes are returned as a
`(path, content)` list.  The result's `execution_time` (wall-clock float)
is not modelled; no claim concerns it.  The `docker run` argument-list
assembly (env-var `-e` flags and extra `-p` mappings) has no observable
effect on the result record and is not materialized. -/

/-- `ExecutionResult`: mutable result record of an execution. -/
structure ExecutionResult where
  success : Bool := false
  logs : List String := []
  artifacts : List (String × String) := []
  container_id : Option String := Option.none
  endpoints : List String := []
  error : Option String := Option.none
deriving Inhabited

/-- `ExecutionResult.add_log`. -/
def ExecutionResult.add_log (r : ExecutionResult) (m : String) : ExecutionResult :=
  { r with logs := r.logs ++ [m] }

/-- The configuration fields the executor reads (`src/config.py` defaults);
`container_pfx` embeds the source's container-name prefix setting. -/
structure AppConfig where
  skip_amen_confirmation : Bool := true
  container_port : Int := 8000
  container_pfx : String := "intent"
  workspace_dir : String := "/tmp/intent-iterative"
deriving Inhabited

/-- Oracle for the executor's external effects: TCP bind availability per
port, and the return code / captured streams of the `docker build` and
`docker run` subprocess calls. -/
structure ProcEnv where
  avail : Int → Bool
  build_rc : Int := 0
  build_stderr : String := ""
  run_rc : Int := 0
  run_stdout : String := ""
  run_stderr : String := ""

/-- Python `s[:n]`. -/
def strTake (s : String) (n : Nat) : String :=
  (s.toList.take n).asString

/-- `Executor._find_available_port`: probe `start_port`, `start_port+1`, …
for up to 100 attempts; fall back to `start_port + 100`. -/
def find_available_port (avail : Int → Bool) (start_port : Int) : Int :=
  go start_port 100
where
  /-- The bounded probing loop (`fuel` = remaining attempts). -/
  go (port : Int) : Nat → Int
  | 0 => start_port + 100
  | fuel + 1 => if avail port then port else go (port + 1) fuel

/-- The `package.json` text written for node services (`json.dumps` of the
package mapping with `indent=2`). -/
def packageJsonText (ir : IntentIR) : String :=
  let deps :=
    if ir.implementation.framework = some "express" then
      "\x7b\n    \"express\": \"^4.18.0\"\n  \x7d"
    else "\x7b\x7d"
  "\x7b\n  \"name\": \"" ++ ir.intent.name ++
  "\",\n  \"version\": \"1.0.0\",\n  \"main\": \"app.js\",\n  \"dependencies\": " ++
  deps ++ "\n\x7d"

/-- `Executor._write_artifacts`: updates the result (artifact mapping and
log lines) and returns the filesystem writes it performs. -/
def write_artifacts (cfg : AppConfig) (ir : IntentIR) (r : ExecutionResult) :
    ExecutionResult × List (String × String) :=
  let lang := ir.implementation.language
  let (r, w1) :=
    if optStrTruthy ir.generated_code then
      let fname := if lang = "python" then "app.py"
                   else if lang = "node" then "app.js"
                   else "app.txt"
      let path := cfg.workspace_dir ++ "/" ++ fname
      let r := { r with artifacts := r.artifacts ++ [("app", path)] }
      let r := r.add_log ("Written: " ++ fname)
      (r, [(path, (ir.generated_code).getD "")])
    else (r, [])
  let (r, w2) :=
    if optStrTruthy ir.dockerfile then
      let path := cfg.workspace_dir ++ "/Dockerfile"
      let r := { r with artifacts := r.artifacts ++ [("Dockerfile", path)] }
      let r := r.add_log "Written: Dockerfile"
      (r, [(path, (ir.dockerfile).getD "")])
    else (r, [])
  let (r, w3) :=
    if lang = "node" then
      let path := cfg.workspace_dir ++ "/package.json"
      let r := { r with artifacts := r.artifacts ++ [("package.json", path)] }
      let r := r.add_log "Written: package.json"
      (r, [(path, packageJsonText ir)])
    else (r, [])
  (r, w1 ++ w2 ++ w3)

/-- The `requested_port` local of `Executor._execute_docker`: the first
declared environment port, else the configured container port. -/
def requested_port (cfg : AppConfig) (ir : IntentIR) : Int :=
  match ir.environment.ports with
  | [] => cfg.container_port
  | p :: _ => p

/-- `Executor._execute_docker`: port allocation, image build, container
start, endpoint synthesis — subprocess outcomes from the oracle. -/
def execute_docker (env : ProcEnv) (cfg : AppConfig) (ir : IntentIR)
    (r : ExecutionResult) : ExecutionResult :=
  let image_name := cfg.container_pfx ++ "-" ++ ir.intent.name ++ ":latest"
  let container_name := cfg.container_pfx ++ "-" ++ ir.intent.name ++ "-" ++ ir.id
  let host_port := find_available_port env.avail (requested_port cfg ir)
  let r :=
    if host_port ≠ requested_port cfg ir then
      r.add_log ("Port " ++ toString (requested_port cfg ir) ++ " in use, using " ++
                 toString host_port)
    else r
  let r := r.add_log ("Building Docker image: " ++ image_name)
  if env.build_rc ≠ 0 then
    let r := { r with error := some ("Docker build failed: " ++ env.build_stderr) }
    r.add_log ("Build error: " ++ strTake env.build_stderr 500)
  else
    let r := r.add_log "Docker image built successfully"
    let r := r.add_log ("Starting container: " ++ container_name)
    if env.run_rc ≠ 0 then
      let r := { r with error := some ("Docker run failed: " ++ env.run_stderr) }
      r.add_log ("Run error: " ++ strTake env.run_stderr 500)
    else
      let cid := strTake (pyStrip env.run_stdout) 12
      let r := { r with container_id := some cid }
      let r := r.add_log ("Container started: " ++ cid)
      let r := { r with endpoints := r.endpoints ++
        ["http://localhost:" ++ toString host_port] }
      { r with endpoints := r.endpoints ++
          (ir.implementation.actions.filterMap (fun a =>
            if a.type.value = "api.expose" then
              some ("http://localhost:" ++ toString host_port ++ optStrShow a.target)
            else Option.none)) }

/-- `Executor._execute_local`: interpreter resolution and endpoint
synthesis; never launches a process (a stated limitation of the source). -/
def execute_local (env : ProcEnv) (cfg : AppConfig) (ir : IntentIR)
    (r : ExecutionResult) : ExecutionResult :=
  let lang := ir.implementation.language
  match alookup2 r.artifacts "app" with
  | Option.none => { r with error := some "No application file generated" }
  | some app_file =>
      let r := r.add_log ("Starting local execution: " ++ app_file)
      if lang = "python" ∨ lang = "node" then
        let cmdHead := if lang = "python" then "python" else "node"
        let r := r.add_log ("Command: " ++ cmdHead ++ " " ++ app_file)
        let r := r.add_log "Application would start here (non-blocking in production)"
        let port := find_available_port env.avail cfg.container_port
        { r with endpoints := r.endpoints ++ ["http://localhost:" ++ toString port] }
      else
        { r with error := some ("Unsupported language for local execution: " ++ lang) }
where
  /-- `dict.get` over the artifact mapping. -/
  alookup2 (kvs : List (String × String)) (k : String) : Option String :=
    match kvs with
    | [] => Option.none
    | (k', v) :: rest => if k' = k then some v else alookup2 rest k

/-- `Executor.execute`: the AMEN gate, artifact materialization and runtime
dispatch.  Returns the result record, the filesystem writes performed, and
the IR (mutated only by the skip-check auto-approval, which stamps `now`). -/
def Executor.execute (env : ProcEnv) (cfg : AppConfig) (now : String)
    (ir : IntentIR) (skip_amen_check : Option Bool) :
    ExecutionResult × List (String × String) × IntentIR :=
  let r : ExecutionResult := {}
  let skip_check := skip_amen_check.getD cfg.skip_amen_confirmation
  if !skip_check then
    if !ir.amen_approved then
      let r := { r with error := some "Intent not approved. Call approve_amen() first." }
      let r := r.add_log "ERROR: Execution blocked - AMEN boundary not passed"
      (r, [], ir)
    else if ir.execution_mode ≠ ExecutionMode.transactional then
      let r := { r with error := some "Intent is in dry-run mode. Change to transactional mode." }
      let r := r.add_log "ERROR: Execution blocked - still in dry-run mode"
      (r, [], ir)
    else
      executeBody env cfg ir r
  else
    let (ir, r) :=
      if !ir.amen_approved then
        (ir.approve_amen now,
         r.add_log "Auto-approved intent (SKIP_AMEN_CONFIRMATION=true)")
      else (ir, r)
    executeBody env cfg ir r
where
  /-- The post-gate body: write artifacts, dispatch on the runtime, set
  `success` when no error was recorded. -/
  executeBody (env : ProcEnv) (cfg : AppConfig) (ir : IntentIR)
      (r : ExecutionResult) : ExecutionResult × List (String × String) × IntentIR :=
    let r := r.add_log ("Starting execution for: " ++ ir.intent.name)
    let r := r.add_log ("Workspace: " ++ cfg.workspace_dir)
    let (r, writes) := write_artifacts cfg ir r
    let r :=
      match ir.environment.runtime with
      | .docker => execute_docker env cfg ir r
      | .local => execute_local env cfg ir r
      | rt =>
          let r := r.add_log ("Runtime " ++ rt.value ++ " not yet supported")
          { r with error := some ("Unsupported runtime: " ++ rt.value) }
    let r :=
      if r.error = Option.none then
        let r := { r with success := true }
        r.add_log "Execution completed successfully"
      else r
    (r, writes, ir)

/-! ## Derived notions used by the statements -/

/-- A sequence of `record_iteration` calls, each carrying its changes dict,
source tag and `datetime.now()` reading. -/
def applyIters (ir : IntentIR) (steps : List (PyVal × String × String)) : IntentIR :=
  steps.foldl (fun ir st => ir.add_iteration st.1 st.2.1 st.2.2) ir

/-- An `IntentIR` reachable through the core's operations: produced by a
successful parse and transformed by `add_iteration`, `Planner.dry_run`
(which hands back the updated IR) and `approve_amen`. -/
inductive Reachable : IntentIR → Prop where
  | parsed (freshId now : String) (doc : List (String × PyVal)) (ir : IntentIR) :
      DSLParser.parse freshId now doc = .ok ir → Reachable ir
  | iterated (ir : IntentIR) (changes : PyVal) (source now : String) :
      Reachable ir → Reachable (ir.add_iteration changes source now)
  | planned (ir : IntentIR) : Reachable ir → Reachable (Planner.dry_run ir).2
  | approved (ir : IntentIR) (now : String) :
      Reachable ir → Reachable (ir.approve_amen now)

/-- Spec-side rule for one trailing action-line token (for comparison with
the parser's params loop): the key is everything before the first `'='`. -/
def specParamKey (tok : String) : String :=
  ((tok.toList.takeWhile (fun c => c ≠ '=')).asString)

/-- Spec-side rule for one trailing token's value: the literal substring
after the first `'='`, or boolean `True` when the token has no `'='`. -/
def specParamVal (tok : String) : PyVal :=
  if tok.toList.contains '=' then
    .str (((tok.toList.dropWhile (fun c => c ≠ '=')).drop 1).asString)
  else .bool true

/-- The iteration-bookkeeping invariant of §3: the counter equals the
history length and the `k`-th history record's `"iteration"` field holds
`k + 1`, its 1-based position. -/
def IterInv (ir : IntentIR) : Prop :=
  ir.iteration_count = ir.iteration_history.length ∧
  ∀ k, k < ir.iteration_history.length →
    alookup (((ir.iteration_history.getD k PyVal.none).asDict).getD []) "iteration"
      = some (.int (k + 1))

/-! ## Helper lemmas -/

lemma getD_append_left {α} (l l' : List α) (d : α) (k : Nat) (h : k < l.length) :
    (l ++ l').getD k d = l.getD k d := by
  induction l generalizing k with
  | nil => simp at h
  | cons a t ih =>
      cases k with
      | zero => rfl
      | succ k => simpa using ih k (by simpa using h)

lemma getD_append_at {α} (l : List α) (x : α) (d : α) :
    (l ++ [x]).getD l.length d = x := by
  induction l with
  | nil => rfl
  | cons a t ih => simp [ih]

lemma add_iteration_inv {ir : IntentIR} (h : IterInv ir) (ch : PyVal)
    (src now : String) : IterInv (ir.add_iteration ch src now) := by
  obtain ⟨h1, h2⟩ := h
  constructor
  · simp [IntentIR.add_iteration, h1]
  · intro k hk
    simp only [IntentIR.add_iteration] at hk ⊢
    rw [List.length_append, List.length_singleton] at hk
    rcases Nat.lt_succ_iff_lt_or_eq.mp hk with hlt | heq
    · rw [getD_append_left _ _ _ _ hlt]
      exact h2 k hlt
    · subst heq
      rw [getD_append_at]
      simp [alookup, PyVal.asDict, h1]

lemma applyIters_inv (steps : List (PyVal × String × String)) :
    ∀ ir : IntentIR, IterInv ir → IterInv (applyIters ir steps) := by
  induction steps with
  | nil => intro ir h; exact h
  | cons st rest ih =>
      intro ir h
      exact ih _ (add_iteration_inv h st.1 st.2.1 st.2.2)

lemma applyIters_count (steps : List (PyVal × String × String)) :
    ∀ ir : IntentIR,
      (applyIters ir steps).iteration_count = ir.iteration_count + steps.length := by
  induction steps with
  | nil => intro ir; simp [applyIters]
  | cons st rest ih =>
      intro ir
      have := ih (ir.add_iteration st.1 st.2.1 st.2.2)
      simp only [applyIters, List.foldl_cons] at this ⊢
      rw [this]
      simp [IntentIR.add_iteration]
      omega

lemma simulate_action_success (a : Action) (r : DryRunResult) :
    (simulate_action a r).success = r.success := by
  rcases a with ⟨ty, m, t, p⟩
  cases ty <;> simp [simulate_action, DryRunResult.add_log]

lemma foldl_simulate_success (l : List Action) (r : DryRunResult) :
    (l.foldl (fun r a => simulate_action a r) r).success = r.success := by
  induction l generalizing r with
  | nil => rfl
  | cons a l ih => simp [List.foldl_cons, ih, simulate_action_success]

lemma dry_run_snd (ir : IntentIR) :
    (Planner.dry_run ir).2 =
      { ir with dry_run_logs := (Planner.dry_run ir).1.logs,
                generated_code := some (Planner.dry_run ir).1.generated_code,
                dockerfile := some (Planner.dry_run ir).1.dockerfile } := by
  unfold Planner.dry_run
  cases codeGeneratorFor ir.implementation.language <;>
    by_cases h : ir.environment.runtime = RuntimeType.docker <;>
      simp [h]

/-- C10: `Planner.dry_run` returns a result whose `success` field is `true`
for every input `IntentIR`; no execution path sets it to `false`. -/
theorem C10_dry_run_always_succeeds (ir : IntentIR) :
    (Planner.dry_run ir).1.success = true := by
  unfold Planner.dry_run
  cases hg : codeGeneratorFor ir.implementation.language <;>
    by_cases h : ir.environment.runtime = RuntimeType.docker <;>
      simp [hg, h, DryRunResult.add_log, foldl_simulate_success]

/-- C6: `record_iteration` never fails (it is a total function here); after
`n` calls on a fresh `IntentIR` the counter and the history length are both
`n` and the `k`-th history record's `"iteration"` field is `k + 1`, its
1-based position; and the counter/history-length invariant is preserved by
every operation (`add_iteration`, `approve_amen`, `Planner.dry_run`). -/
theorem C6_iteration_bookkeeping (freshId now : String)
    (steps : List (PyVal × String × String)) :
    ((applyIters (IntentIR.mkFresh freshId now) steps).iteration_count = steps.length ∧
     (applyIters (IntentIR.mkFresh freshId now) steps).iteration_history.length
       = steps.length ∧
     ∀ k, k < steps.length →
       alookup ((((applyIters (IntentIR.mkFresh freshId now)
             steps).iteration_history.getD k PyVal.none).asDict).getD []) "iteration"
         = some (.int (k + 1)))
    ∧ (∀ ir : IntentIR, ∀ ch : PyVal, ∀ src n2 : String,
        ir.iteration_count = ir.iteration_history.length →
          (ir.add_iteration ch src n2).iteration_count
            = (ir.add_iteration ch src n2).iteration_history.length)
    ∧ (∀ ir : IntentIR, ∀ n2 : String,
        (ir.approve_amen n2).iteration_count = ir.iteration_count ∧
        (ir.approve_amen n2).iteration_history = ir.iteration_history)
    ∧ (∀ ir : IntentIR,
        (Planner.dry_run ir).2.iteration_count = ir.iteration_count ∧
        (Planner.dry_run ir).2.iteration_history = ir.iteration_history) := by
  have hfresh : IterInv (IntentIR.mkFresh freshId now) := by
    constructor
    · rfl
    · intro k hk
      simp [IntentIR.mkFresh] at hk
  have hinv := applyIters_inv steps _ hfresh
  have hcount := applyIters_count steps (IntentIR.mkFresh freshId now)
  have hc : (applyIters (IntentIR.mkFresh freshId now) steps).iteration_count
      = steps.length := by
    rw [hcount]; simp [IntentIR.mkFresh]
  refine ⟨⟨hc, ?_, ?_⟩, ?_, ?_, ?_⟩
  · rw [← hinv.1, hc]
  · intro k hk
    exact hinv.2 k (by rw [← hinv.1, hc]; exact hk)
  · intro ir ch src n2 h
    simp [IntentIR.add_iteration, h]
  · intro ir n2
    exact ⟨rfl, rfl⟩
  · intro ir
    rw [dry_run_snd ir]
    exact ⟨rfl, rfl⟩

/-- Witness for C6 at a concrete run: two `record_iteration` calls on a
fresh IR leave counter and history length at 2, and the second record's
sequence number is 2. -/
theorem C6_iteration_bookkeeping_witness :
    (applyIters (IntentIR.mkFresh "i" "t")
        [(PyVal.none, "user", "t1"), (PyVal.none, "ai", "t2")]).iteration_count = 2 ∧
    (applyIters (IntentIR.mkFresh "i" "t")
        [(PyVal.none, "user", "t1"), (PyVal.none, "ai", "t2")]).iteration_history.length
      = 2 ∧
    alookup ((((applyIters (IntentIR.mkFresh "i" "t")
          [(PyVal.none, "user", "t1"),
           (PyVal.none, "ai", "t2")]).iteration_history.getD 1 PyVal.none).asDict).getD [])
        "iteration" = some (.int 2) := by
  have h := C6_iteration_bookkeeping "i" "t"
    [(PyVal.none, "user", "t1"), (PyVal.none, "ai", "t2")]
  exact ⟨h.1.1, h.1.2.1, h.1.2.2 1 (by decide)⟩

lemma actionType_ofValue_value (t : ActionType) :
    ActionType.ofValue t.value = some t := by
  cases t <;> decide

lemma executionMode_ofValue_value (m : ExecutionMode) :
    ExecutionMode.ofValue m.value = some m := by
  cases m <;> decide

lemma runtimeType_ofValue_value (rt : RuntimeType) :
    RuntimeType.ofValue rt.value = some rt := by
  cases rt <;> decide

lemma asStr_str (s : String) : PyVal.asStr (.str s) = some s := rfl

lemma asInt_int (n : Int) : PyVal.asInt (.int n) = some n := rfl

lemma asBool_bool (b : Bool) : PyVal.asBool (.bool b) = some b := rfl

lemma asList_list (xs : List PyVal) : PyVal.asList (.list xs) = some xs := rfl

lemma asDict_dict (kvs : List (String × PyVal)) :
    PyVal.asDict (.dict kvs) = some kvs := rfl

lemma asOptStr_none : PyVal.asOptStr .none = some Option.none := rfl

lemma asOptStr_str (s : String) : PyVal.asOptStr (.str s) = some (some s) := rfl

lemma asNat_natCast (n : Nat) : PyVal.asNat (.int (n : Int)) = some n := rfl

lemma from_dict_eval (fid now i : String) (v : Nat) (ca ua : String)
    (itv envv implv : PyVal) (ems : String) (ap : Bool) (ic : Nat)
    (ihl : List PyVal) (gcv dfv : PyVal) (dll : List PyVal) :
    IntentIR.from_dict fid now (.dict
      [("id", .str i), ("version", .int (v : Int)), ("created_at", .str ca),
       ("updated_at", .str ua), ("intent", itv), ("environment", envv),
       ("implementation", implv), ("execution_mode", .str ems),
       ("amen_approved", .bool ap), ("iteration_count", .int (ic : Int)),
       ("iteration_history", .list ihl), ("generated_code", gcv),
       ("dockerfile", dfv), ("dry_run_logs", .list dll)]) =
    (Intent.from_dict itv).bind (fun it =>
      (Environment.from_dict envv).bind (fun env =>
        (Implementation.from_dict implv).bind (fun impl =>
          (ExecutionMode.ofValue ems).bind (fun em =>
            (gcv.asOptStr).bind (fun gc =>
              (dfv.asOptStr).bind (fun df =>
                (mapOpt PyVal.asStr dll).bind (fun dl =>
                  some { id := i, version := v, created_at := ca,
                         updated_at := ua, intent := it, environment := env,
                         implementation := impl, execution_mode := em,
                         amen_approved := ap, iteration_count := ic,
                         iteration_history := ihl, generated_code := gc,
                         dockerfile := df, dry_run_logs := dl }))))))) := rfl

lemma mapOpt_asStr_str (l : List String) :
    mapOpt PyVal.asStr (l.map PyVal.str) = some l := by
  induction l with
  | nil => rfl
  | cons a t ih => simp [mapOpt, ih, asStr_str]

lemma mapOpt_asInt_int (l : List Int) :
    mapOpt PyVal.asInt (l.map PyVal.int) = some l := by
  induction l with
  | nil => rfl
  | cons a t ih => simp [mapOpt, ih, asInt_int]

lemma mapOpt_strMap (l : List (String × String)) :
    mapOpt (fun kv => (PyVal.asStr kv.2).map (fun s => (kv.1, s)))
      (l.map (fun kv => (kv.1, PyVal.str kv.2))) = some l := by
  induction l with
  | nil => rfl
  | cons a t ih => simp [mapOpt, ih, asStr_str]

lemma action_from_to_dict (a : Action) : Action.from_dict a.to_dict = some a := by
  rcases a with ⟨ty, m, t, p⟩
  cases m <;> cases t <;>
    simp [Action.to_dict, Action.from_dict, agetD, alookup, asDict_dict,
          asStr_str, asOptStr_none, asOptStr_str, actionType_ofValue_value]

lemma mapOpt_action (l : List Action) :
    mapOpt Action.from_dict (l.map Action.to_dict) = some l := by
  induction l with
  | nil => rfl
  | cons a t ih => simp [mapOpt, ih, action_from_to_dict]

lemma intent_from_to_dict (i : Intent) : Intent.from_dict i.to_dict = some i := by
  rcases i with ⟨n, g, d⟩
  cases d <;>
    simp [Intent.to_dict, Intent.from_dict, agetD, alookup, asDict_dict,
          asStr_str, asOptStr_none, asOptStr_str]

lemma environment_from_to_dict (e : Environment) :
    Environment.from_dict e.to_dict = some e := by
  rcases e with ⟨rt, bi, sv, ps, vs, ev⟩
  simp [Environment.to_dict, Environment.from_dict, agetD, alookup, asDict_dict,
        asStr_str, PyVal.asStrList, PyVal.asIntList, PyVal.asStrMap,
        runtimeType_ofValue_value, mapOpt_asStr_str, mapOpt_asInt_int, mapOpt_strMap]

lemma implementation_from_to_dict (i : Implementation) :
    Implementation.from_dict i.to_dict = some i := by
  rcases i with ⟨lang, fw, acts⟩
  cases fw <;>
    simp [Implementation.to_dict, Implementation.from_dict, agetD, alookup,
          asDict_dict, asStr_str, asOptStr_none, asOptStr_str, asList_list,
          mapOpt_action]

/-- C3: serialization round trip — deserializing the serialized form of any
`IntentIR` (in particular any parser-produced one) restores every field
exactly, enum fields travelling as their canonical string tokens. -/
theorem C3_serialization_round_trip (freshId now : String) (ir : IntentIR) :
    IntentIR.from_dict freshId now ir.to_dict = some ir := by
  rcases ir with ⟨i, v, ca, ua, it, env, impl, em, ap, ic, ihl, gc, df, dl⟩
  show IntentIR.from_dict freshId now (.dict
      [("id", .str i), ("version", .int (v : Int)), ("created_at", .str ca),
       ("updated_at", .str ua), ("intent", Intent.to_dict it),
       ("environment", Environment.to_dict env),
       ("implementation", Implementation.to_dict impl),
       ("execution_mode", .str em.value), ("amen_approved", .bool ap),
       ("iteration_count", .int (ic : Int)), ("iteration_history", .list ihl),
       ("generated_code", match gc with | some s => PyVal.str s | _ => PyVal.none),
       ("dockerfile", match df with | some s => PyVal.str s | _ => PyVal.none),
       ("dry_run_logs", .list (dl.map PyVal.str))]) = _
  rw [from_dict_eval]
  cases gc <;> cases df <;>
    simp [intent_from_to_dict, environment_from_to_dict,
          implementation_from_to_dict, executionMode_ofValue_value,
          mapOpt_asStr_str, asOptStr_none, asOptStr_str]

/-- C2: in strict mode (`skip_amen_check = false`), executing an unapproved
IR yields a blocked failure value — `success = false`, a non-null error, a
log entry — with no artifact recorded and no file written, and no exception
(the embedding is a total function). -/
theorem C2_executor_blocks_unapproved (env : ProcEnv) (cfg : AppConfig)
    (now : String) (ir : IntentIR) (h : ir.amen_approved = false) :
    (Executor.execute env cfg now ir (some false)).1.success = false ∧
    (Executor.execute env cfg now ir (some false)).1.error ≠ Option.none ∧
    (Executor.execute env cfg now ir (some false)).1.logs ≠ [] ∧
    (Executor.execute env cfg now ir (some false)).1.artifacts = [] ∧
    (Executor.execute env cfg now ir (some false)).2.1 = [] := by
  simp [Executor.execute, h, ExecutionResult.add_log]

/-- Witness for C2 at a concrete unapproved IR and oracle. -/
theorem C2_executor_blocks_unapproved_witness :
    (Executor.execute { avail := fun _ => true } {} "t" (IntentIR.mkFresh "i" "t")
        (some false)).1.success = false ∧
    (Executor.execute { avail := fun _ => true } {} "t" (IntentIR.mkFresh "i" "t")
        (some false)).1.error ≠ Option.none ∧
    (Executor.execute { avail := fun _ => true } {} "t" (IntentIR.mkFresh "i" "t")
        (some false)).1.logs ≠ [] ∧
    (Executor.execute { avail := fun _ => true } {} "t" (IntentIR.mkFresh "i" "t")
        (some false)).1.artifacts = [] ∧
    (Executor.execute { avail := fun _ => true } {} "t" (IntentIR.mkFresh "i" "t")
        (some false)).2.1 = [] :=
  C2_executor_blocks_unapproved { avail := fun _ => true } {} "t"
    (IntentIR.mkFresh "i" "t") rfl

lemma find_go_fail (avail : Int → Bool) (sp : Int) :
    ∀ (fuel : Nat) (port : Int),
      (∀ i : Nat, i < fuel → avail (port + i) = false) →
        find_available_port.go avail sp port fuel = sp + 100 := by
  intro fuel
  induction fuel with
  | zero => intro port _; rfl
  | succ fuel ih =>
      intro port h
      have h0 : avail port = false := by
        have := h 0 (Nat.succ_pos fuel)
        simpa using this
      rw [find_available_port.go, h0]
      simp only [Bool.false_eq_true, if_false]
      refine ih (port + 1) ?_
      intro i hi
      have := h (i + 1) (by omega)
      have harith : port + ((i : Int) + 1) = port + 1 + i := by ring
      simpa [harith] using this

lemma find_go_found (avail : Int → Bool) (sp : Int) :
    ∀ (fuel : Nat) (port : Int) (i : Nat), i < fuel →
      avail (port + i) = true →
      (∀ j : Nat, j < i → avail (port + j) = false) →
        find_available_port.go avail sp port fuel = port + i := by
  intro fuel
  induction fuel with
  | zero => intro port i hi; omega
  | succ fuel ih =>
      intro port i hi hav hbelow
      cases i with
      | zero =>
          have h0 : avail port = true := by simpa using hav
          rw [find_available_port.go, h0]
          simp
      | succ i =>
          have h0 : avail port = false := by
            have := hbelow 0 (Nat.succ_pos i)
            simpa using this
          rw [find_available_port.go, h0]
          simp only [Bool.false_eq_true, if_false]
          have hstep := ih (port + 1) i (by omega)
            (by
              have harith : port + ((i : Int) + 1) = port + 1 + i := by ring
              simpa [harith] using hav)
            (by
              intro j hj
              have := hbelow (j + 1) (by omega)
              have harith : port + ((j : Int) + 1) = port + 1 + j := by ring
              simpa [harith] using this)
          rw [hstep]
          push_cast
          ring

/-- C9: `_find_available_port` probes `start, start+1, …` in order and
returns the smallest available port among the first 100 probed, falling
back to `start + 100` when none is available (never raising — it is a
total function); with `start` occupied and `start+1` free it returns
`start + 1`; and `_execute_docker` logs the substitution whenever the
allocated port differs from the requested one. -/
theorem C9_port_allocation :
    (∀ (avail : Int → Bool) (start : Int),
       (∀ i : Nat, i < 100 → avail (start + i) = false) →
         find_available_port avail start = start + 100)
    ∧ (∀ (avail : Int → Bool) (start : Int) (i : Nat), i < 100 →
         avail (start + i) = true →
         (∀ j : Nat, j < i → avail (start + j) = false) →
           find_available_port avail start = start + i)
    ∧ (∀ (avail : Int → Bool) (start : Int),
         avail start = false → avail (start + 1) = true →
           find_available_port avail start = start + 1)
    ∧ (∀ (env : ProcEnv) (cfg : AppConfig) (ir : IntentIR) (r : ExecutionResult),
         find_available_port env.avail (requested_port cfg ir) ≠ requested_port cfg ir →
           ("Port " ++ toString (requested_port cfg ir) ++ " in use, using " ++
             toString (find_available_port env.avail (requested_port cfg ir)))
             ∈ (execute_docker env cfg ir r).logs) := by
  refine ⟨?_, ?_, ?_, ?_⟩
  · intro avail start h
    exact find_go_fail avail start 100 start h
  · intro avail start i hi hav hbelow
    exact find_go_found avail start 100 start i hi hav hbelow
  · intro avail start h0 h1
    have := find_go_found avail start 100 start 1 (by omega)
      (by simpa using h1)
      (by intro j hj; interval_cases j; simpa using h0)
    simpa using this
  · intro env cfg ir r h
    unfold execute_docker
    dsimp only
    rw [if_pos h]
    by_cases hb : env.build_rc ≠ 0 <;> by_cases hr2 : env.run_rc ≠ 0 <;>
      simp [hb, hr2, ExecutionResult.add_log]

/-- Witness for C9: with only port 8000 occupied, probing from 8000 yields
8001 and the docker path logs the substitution. -/
theorem C9_port_allocation_witness :
    find_available_port (fun p => p != 8000) 8000 = 8001 ∧
    ("Port " ++ toString (requested_port {} (IntentIR.mkFresh "i" "t")) ++
      " in use, using " ++
      toString (find_available_port (fun p => p != 8000)
        (requested_port {} (IntentIR.mkFresh "i" "t"))))
      ∈ (execute_docker { avail := fun p => p != 8000 } {}
          (IntentIR.mkFresh "i" "t") {}).logs := by
  constructor
  · have := C9_port_allocation.2.2.1 (fun p => p != 8000) 8000 (by decide) (by decide)
    simpa using this
  · exact C9_port_allocation.2.2.2 { avail := fun p => p != 8000 } {}
      (IntentIR.mkFresh "i" "t") {} (by decide)

lemma parse_ok_not_approved {freshId now : String} {doc : List (String × PyVal)}
    {ir : IntentIR} (h : DSLParser.parse freshId now doc = .ok ir) :
    ir.amen_approved = false := by
  unfold DSLParser.parse at h
  by_cases he : doc.isEmpty
  · simp [he] at h
  · simp only [he, Bool.false_eq_true, if_false] at h
    split at h
    · cases h
      rfl
    · cases h

/-- C1 counterexample: parsing a document whose EXECUTION.mode is
`transactional` yields an IR with `execution_mode = transactional` while
`amen_approved = false`, so the claimed biconditional fails on a freshly
parsed IR. -/
theorem C1_counterexample :
    ∃ ir, DSLParser.parse "id1" "t1"
        [("INTENT", .dict [("name", .str "svc"), ("goal", .str "demo")]),
         ("EXECUTION", .dict [("mode", .str "transactional")])] = .ok ir ∧
      ir.execution_mode = ExecutionMode.transactional ∧
      ir.amen_approved = false :=
  ⟨_, rfl, rfl, rfl⟩

/-- C1 (amended): over all reachable IRs, `amen_approved = true` implies
`execution_mode = transactional`; `record_iteration` and `dry_run` change
neither field; and the parser never sets `amen_approved` (though it may set
`execution_mode = transactional` from the document, as the counterexample
shows). -/
theorem C1_approval_gate_amended :
    (∀ ir : IntentIR, Reachable ir → ir.amen_approved = true →
       ir.execution_mode = ExecutionMode.transactional)
    ∧ (∀ (ir : IntentIR) (ch : PyVal) (src now : String),
        (ir.add_iteration ch src now).amen_approved = ir.amen_approved ∧
        (ir.add_iteration ch src now).execution_mode = ir.execution_mode)
    ∧ (∀ ir : IntentIR,
        (Planner.dry_run ir).2.amen_approved = ir.amen_approved ∧
        (Planner.dry_run ir).2.execution_mode = ir.execution_mode)
    ∧ (∀ (freshId now : String) (doc : List (String × PyVal)) (ir : IntentIR),
        DSLParser.parse freshId now doc = .ok ir → ir.amen_approved = false) := by
  refine ⟨?_, ?_, ?_, ?_⟩
  · intro ir hr
    induction hr with
    | parsed fid now doc ir hp =>
        intro ha
        rw [parse_ok_not_approved hp] at ha
        cases ha
    | iterated ir ch src now hr ih =>
        intro ha
        have : ir.amen_approved = true := by
          simpa [IntentIR.add_iteration] using ha
        simpa [IntentIR.add_iteration] using ih this
    | planned ir hr ih =>
        intro ha
        rw [dry_run_snd] at ha ⊢
        exact ih ha
    | approved ir now hr ih =>
        intro _
        rfl
  · intro ir ch src now
    exact ⟨rfl, rfl⟩
  · intro ir
    rw [dry_run_snd]
    exact ⟨rfl, rfl⟩
  · intro freshId now doc ir h
    exact parse_ok_not_approved h

/-- Witness for the amended C1: approving a freshly parsed IR leaves it in
transactional mode, via the reachability invariant. -/
theorem C1_approval_gate_amended_witness :
    ∃ ir, DSLParser.parse "i" "t"
        [("INTENT", PyVal.dict [("name", PyVal.str "a"), ("goal", PyVal.str "b")])]
        = .ok ir ∧
      (ir.approve_amen "t2").execution_mode = ExecutionMode.transactional := by
  refine ⟨_, rfl, ?_⟩
  exact C1_approval_gate_amended.1 _
    (Reachable.approved _ "t2" (Reachable.parsed "i" "t"
      [("INTENT", PyVal.dict [("name", PyVal.str "a"), ("goal", PyVal.str "b")])]
      _ rfl)) rfl

lemma asString_toList (s : String) : s.toList.asString = s := by
  cases s
  rfl

lemma asString_nil : ([] : List Char).asString = "" := rfl

lemma pySplitEq1_go_spec (l : List Char) :
    ∀ acc : List Char,
      pySplitEq1.go l acc =
        ((acc.reverse ++ l.takeWhile (fun c => c ≠ '=')).asString,
         ((l.dropWhile (fun c => c ≠ '=')).drop 1).asString) := by
  induction l with
  | nil => intro acc; simp [pySplitEq1.go, asString_nil]
  | cons c t ih =>
      intro acc
      by_cases hc : c = '='
      · subst hc
        simp [pySplitEq1.go]
      · simp [pySplitEq1.go, hc, ih (c :: acc)]

lemma pySplitEq1_spec (s : String) :
    pySplitEq1 s =
      ((s.toList.takeWhile (fun c => c ≠ '=')).asString,
       ((s.toList.dropWhile (fun c => c ≠ '=')).drop 1).asString) := by
  unfold pySplitEq1
  have h := pySplitEq1_go_spec s.toList []
  simpa using h

lemma hasSub_singleton_contains (c : Char) (l : List Char) :
    hasSub [c] l = l.contains c := by
  induction l with
  | nil => rfl
  | cons a t ih => simp [hasSub, takesAhead, ih, List.contains_cons, eq_comm]

lemma contains_iff_mem (c : Char) (l : List Char) :
    l.contains c = true ↔ c ∈ l := by
  induction l with
  | nil => simp [List.contains_nil]
  | cons a t ih => simp [List.contains_cons, ih]

lemma takeWhile_ne_of_not_mem {c : Char} {l : List Char} (h : c ∉ l) :
    l.takeWhile (fun x => x ≠ c) = l := by
  induction l with
  | nil => rfl
  | cons a t ih =>
      simp only [List.mem_cons, not_or] at h
      have ht := ih h.2
      simp only [List.takeWhile_cons, ht]
      simp [Ne.symm h.1]

/-- C5: `"api.expose GET /ping"` parses to an expose-endpoint action with
method GET, target `/ping` and empty params; and the parser's trailing-token
loop agrees with the spec's rule everywhere: each token binds the substring
before its first `'='` to the literal substring after it, or the token
itself to boolean `True` when it carries no `'='`. -/
theorem C5_action_line_grammar :
    (parse_action (.str "api.expose GET /ping")
      = (some { type := ActionType.api_expose, method := some "GET",
                target := some "/ping", params := [] }, []))
    ∧ ∀ ps : String, paramsOfStr ps =
        (wsSplit ps).foldl
          (fun m tok => aset m (specParamKey tok) (specParamVal tok)) [] := by
  constructor
  · rfl
  · intro ps
    unfold paramsOfStr
    congr 1
    funext m part
    by_cases hc : '=' ∈ part.toList
    · have hcb : hasSub ['='] part.toList = true := by
        rw [hasSub_singleton_contains]
        exact (contains_iff_mem '=' part.toList).mpr hc
      rw [hcb, if_pos rfl]
      simp only [specParamKey, specParamVal]
      rw [if_pos ((contains_iff_mem '=' part.toList).mpr hc), pySplitEq1_spec]
    · have hcb : hasSub ['='] part.toList = false := by
        rw [hasSub_singleton_contains]
        by_contra hx
        rw [Bool.not_eq_false] at hx
        exact hc ((contains_iff_mem '=' part.toList).mp hx)
      rw [hcb, if_neg Bool.false_ne_true]
      simp only [specParamKey, specParamVal]
      rw [if_neg (fun hx => hc ((contains_iff_mem '=' part.toList).mp hx)),
          takeWhile_ne_of_not_mem hc, asString_toList]

lemma takesAhead_self_append (n rest : List Char) :
    takesAhead n (n ++ rest) = true := by
  induction n with
  | nil => rfl
  | cons a t ih => simp [takesAhead, ih]

lemma hasSub_self_append (n suf : List Char) : hasSub n (n ++ suf) = true := by
  cases n with
  | nil =>
      cases suf with
      | nil => rfl
      | cons a t => simp [hasSub, takesAhead]
  | cons a t => simp [hasSub, takesAhead, takesAhead_self_append]

lemma hasSub_append_right (n pre rest : List Char) (h : hasSub n rest = true) :
    hasSub n (pre ++ rest) = true := by
  induction pre with
  | nil => exact h
  | cons c t ih => simp [hasSub, ih]

lemma toList_append (s t : String) : (s ++ t).toList = s.toList ++ t.toList := rfl

lemma simulate_action_gc (a : Action) (r : DryRunResult) :
    (simulate_action a r).generated_code = r.generated_code := by
  rcases a with ⟨ty, m, t, p⟩
  cases ty <;> simp [simulate_action, DryRunResult.add_log]

lemma foldl_simulate_gc (l : List Action) (r : DryRunResult) :
    (l.foldl (fun r a => simulate_action a r) r).generated_code
      = r.generated_code := by
  induction l generalizing r with
  | nil => rfl
  | cons a l ih => simp [List.foldl_cons, ih, simulate_action_gc]

lemma simulate_action_warn_mono {w : String} (a : Action) (r : DryRunResult)
    (h : w ∈ r.warnings) : w ∈ (simulate_action a r).warnings := by
  rcases a with ⟨ty, m, t, p⟩
  cases ty <;> simp [simulate_action, DryRunResult.add_log, List.mem_append] <;>
    first
    | exact h
    | exact Or.inl h

lemma foldl_simulate_warn_mono {w : String} (l : List Action) (r : DryRunResult)
    (h : w ∈ r.warnings) :
    w ∈ (l.foldl (fun r a => simulate_action a r) r).warnings := by
  induction l generalizing r with
  | nil => exact h
  | cons a l ih => exact ih _ (simulate_action_warn_mono a r h)

/-- C7 counterexample: on an IR whose language is `ruby`, `dry_run` leaves
`generated_code` empty (no placeholder script echoing name/goal) and only
records a warning. -/
theorem C7_counterexample :
    (Planner.dry_run { IntentIR.mkFresh "i7" "t7" with
        intent := { name := "n", goal := "g" },
        implementation := { language := "ruby", framework := Option.none,
                            actions := [] } }).1.generated_code = "" ∧
    "No code generator for language: ruby"
      ∈ (Planner.dry_run { IntentIR.mkFresh "i7" "t7" with
          intent := { name := "n", goal := "g" },
          implementation := { language := "ruby", framework := Option.none,
                              actions := [] } }).1.warnings := by
  constructor
  · rfl
  · simp [Planner.dry_run, DryRunResult.add_log, codeGeneratorFor,
          generate_dockerfile, IntentIR.mkFresh]

/-- C7 (amended): code generation never raises (the embedding is total);
for a language outside the generator table `dry_run` leaves
`generated_code` empty and appends a warning naming the language; the
minimal placeholder script — echoing the intent name and goal and marking
the actions as unimplemented — is produced for the *supported* language
`python` with an unrecognized framework. -/
theorem C7_codegen_fallback_amended (ir : IntentIR) :
    (ir.implementation.language ≠ "python" → ir.implementation.language ≠ "node" →
      (Planner.dry_run ir).1.generated_code = "" ∧
      ("No code generator for language: " ++ ir.implementation.language)
        ∈ (Planner.dry_run ir).1.warnings)
    ∧ (ir.implementation.language = "python" →
       ir.implementation.framework ≠ some "fastapi" →
       ir.implementation.framework ≠ some "flask" →
      (Planner.dry_run ir).1.generated_code = generate_basic_python_code ir ∧
      hasSub ir.intent.name.toList (generate_basic_python_code ir).toList = true ∧
      hasSub ir.intent.goal.toList (generate_basic_python_code ir).toList = true ∧
      hasSub "# TODO: Implement actions".toList
        (generate_basic_python_code ir).toList = true) := by
  constructor
  · intro h1 h2
    have hg : codeGeneratorFor ir.implementation.language = Option.none := by
      unfold codeGeneratorFor
      rw [if_neg h1, if_neg h2]
    unfold Planner.dry_run
    dsimp only
    rw [hg]
    by_cases hrt : ir.environment.runtime = RuntimeType.docker <;>
      simp [hrt, DryRunResult.add_log, foldl_simulate_gc] <;>
      (refine foldl_simulate_warn_mono _ _ ?_; simp [DryRunResult.add_log])
  · intro h1 h2 h3
    have hg : codeGeneratorFor ir.implementation.language
        = some generate_python_code := by
      unfold codeGeneratorFor
      rw [if_pos h1]
    have hb : generate_python_code ir = generate_basic_python_code ir := by
      unfold generate_python_code
      rw [if_neg h2, if_neg h3]
    have hgc : (Planner.dry_run ir).1.generated_code
        = generate_basic_python_code ir := by
      unfold Planner.dry_run
      dsimp only
      rw [hg]
      by_cases hrt : ir.environment.runtime = RuntimeType.docker <;>
        simp [hrt, DryRunResult.add_log, foldl_simulate_gc, hb]
    refine ⟨hgc, ?_, ?_, ?_⟩
    · unfold generate_basic_python_code
      simp only [toList_append, List.append_assoc]
      exact hasSub_append_right _ _ _ (hasSub_self_append _ _)
    · unfold generate_basic_python_code
      simp only [toList_append, List.append_assoc]
      refine hasSub_append_right _ _ _ ?_
      refine hasSub_append_right _ _ _ ?_
      refine hasSub_append_right _ _ _ ?_
      exact hasSub_self_append _ _
    · unfold generate_basic_python_code
      simp only [toList_append, List.append_assoc]
      refine hasSub_append_right _ _ _ ?_
      refine hasSub_append_right _ _ _ ?_
      refine hasSub_append_right _ _ _ ?_
      refine hasSub_append_right _ _ _ ?_
      refine hasSub_append_right _ _ _ ?_
      refine hasSub_append_right _ _ _ ?_
      refine hasSub_append_right _ _ _ ?_
      refine hasSub_append_right _ _ _ ?_
      decide

/-- Witness for the amended C7 at concrete IRs: a `ruby` IR gets empty code
and the warning; a plain-`python` IR gets the placeholder script. -/
theorem C7_codegen_fallback_amended_witness :
    ((Planner.dry_run { IntentIR.mkFresh "w7" "t" with
        implementation := { language := "ruby", framework := Option.none,
                            actions := [] } }).1.generated_code = "" ∧
     ("No code generator for language: " ++ "ruby")
       ∈ (Planner.dry_run { IntentIR.mkFresh "w7" "t" with
           implementation := { language := "ruby", framework := Option.none,
                               actions := [] } }).1.warnings) ∧
    (Planner.dry_run { IntentIR.mkFresh "w7b" "t" with
        implementation := { language := "python", framework := Option.none,
                            actions := [] } }).1.generated_code
      = generate_basic_python_code { IntentIR.mkFresh "w7b" "t" with
          implementation := { language := "python", framework := Option.none,
                              actions := [] } } := by
  constructor
  · exact (C7_codegen_fallback_amended { IntentIR.mkFresh "w7" "t" with
      implementation := { language := "ruby", framework := Option.none,
                          actions := [] } }).1 (by decide) (by decide)
  · exact ((C7_codegen_fallback_amended { IntentIR.mkFresh "w7b" "t" with
      implementation := { language := "python", framework := Option.none,
                          actions := [] } }).2 rfl (by simp) (by simp)).1

lemma mem_insertNeg2_self (l : List String) (x : String) : x ∈ insertNeg2 l x := by
  unfold insertNeg2
  simp

lemma mem_insertNeg2_of_mem {a : String} (l : List String) (x : String)
    (h : a ∈ l) : a ∈ insertNeg2 l x := by
  unfold insertNeg2
  conv at h => rw [← List.take_append_drop (l.length - 2) l]
  rcases List.mem_append.mp h with h' | h'
  · exact List.mem_append.mpr (Or.inl h')
  · exact List.mem_append.mpr (Or.inr (List.mem_cons_of_mem _ h'))

lemma ports_foldl_mem_base {a : String} (ports : List Int) (l : List String)
    (h : a ∈ l) :
    a ∈ ports.foldl
        (fun ls p => if p ≠ 8000 then insertNeg2 ls ("EXPOSE " ++ toString p) else ls)
        l := by
  induction ports generalizing l with
  | nil => exact h
  | cons q rest ih =>
      simp only [List.foldl_cons]
      by_cases hq : q ≠ 8000
      · rw [if_pos hq]
        exact ih _ (mem_insertNeg2_of_mem _ _ h)
      · rw [if_neg hq]
        exact ih _ h

lemma ports_foldl_mem_port (p : Int) (hne : p ≠ 8000) :
    ∀ (ports : List Int) (l : List String), p ∈ ports →
      ("EXPOSE " ++ toString p) ∈ ports.foldl
        (fun ls q => if q ≠ 8000 then insertNeg2 ls ("EXPOSE " ++ toString q) else ls)
        l := by
  intro ports
  induction ports with
  | nil => intro l hp; cases hp
  | cons q rest ih =>
      intro l hp
      simp only [List.foldl_cons]
      rcases List.mem_cons.mp hp with heq | hmem
      · subst heq
        rw [if_pos hne]
        exact ports_foldl_mem_base rest _ (mem_insertNeg2_self _ _)
      · by_cases hq : q ≠ 8000
        · rw [if_pos hq]; exact ih _ hmem
        · rw [if_neg hq]; exact ih _ hmem

/-- C8 counterexample: with `environment.ports = [9000, 9000]` the generated
build file contains the `EXPOSE 9000` directive twice — duplicates are not
removed, so "exactly one directive per unique port" fails. -/
theorem C8_counterexample :
    (generate_dockerfile_lines { IntentIR.mkFresh "i8" "t8" with
        intent := { name := "n", goal := "g" },
        environment := { ports := [9000, 9000] },
        implementation := { language := "python", framework := Option.none,
                            actions := [] } }).count "EXPOSE 9000" = 2 ∧
    ¬ (generate_dockerfile_lines { IntentIR.mkFresh "i8" "t8" with
        intent := { name := "n", goal := "g" },
        environment := { ports := [9000, 9000] },
        implementation := { language := "python", framework := Option.none,
                            actions := [] } }).count "EXPOSE 9000" = 1 := by
  have h2 : (generate_dockerfile_lines { IntentIR.mkFresh "i8" "t8" with
      intent := { name := "n", goal := "g" },
      environment := { ports := [9000, 9000] },
      implementation := { language := "python", framework := Option.none,
                          actions := [] } }).count "EXPOSE 9000" = 2 := rfl
  refine ⟨h2, ?_⟩
  rw [h2]
  omega

lemma ne_of_data_head {a b : Char} {s t : String}
    (ha : s.data.head? = some a) (hb : t.data.head? = some b) (hab : a ≠ b) :
    s ≠ t := by
  intro h
  apply hab
  have hs : some a = some b := by
    rw [← ha, ← hb, h]
  exact Option.some.inj hs

lemma hdr_ne_expose (n : String) :
    ("# Auto-generated Dockerfile for: " ++ n) ≠ "EXPOSE 8000" :=
  ne_of_data_head (a := '#') (b := 'E') rfl rfl (by decide)

lemma from_ne_expose (b : String) : ("FROM " ++ b) ≠ "EXPOSE 8000" :=
  ne_of_data_head (a := 'F') (b := 'E') rfl rfl (by decide)

lemma runpip_ne_expose (d : String) :
    ("RUN pip install --no-cache-dir " ++ d) ≠ "EXPOSE 8000" :=
  ne_of_data_head (a := 'R') (b := 'E') rfl rfl (by decide)

lemma insertNeg2_front (front tail : List String) (ht : tail.length = 2)
    (x : String) : insertNeg2 (front ++ tail) x = front ++ x :: tail := by
  unfold insertNeg2
  have hl : (front ++ tail).length - 2 = front.length := by
    simp [List.length_append, ht]
  rw [hl, List.take_left, List.drop_left]

lemma foldl_insertNeg2_splice (ports : List Int) :
    ∀ (front tail : List String), tail.length = 2 →
      ports.foldl
        (fun ls p => if p ≠ 8000 then insertNeg2 ls ("EXPOSE " ++ toString p) else ls)
        (front ++ tail)
      = front ++ ((ports.filter (fun p => p ≠ 8000)).map
          (fun p => "EXPOSE " ++ toString p)) ++ tail := by
  induction ports with
  | nil =>
      intro front tail ht
      simp
  | cons q rest ih =>
      intro front tail ht
      simp only [List.foldl_cons]
      by_cases hq : q ≠ 8000
      · rw [if_pos hq, insertNeg2_front front tail ht,
            show front ++ ("EXPOSE " ++ toString q) :: tail
              = (front ++ ["EXPOSE " ++ toString q]) ++ tail by simp,
            ih _ _ ht]
        simp [List.filter_cons, hq]
      · rw [if_neg hq, ih _ _ ht]
        simp [List.filter_cons, hq]

/-- C8 (amended): for a python or node IR the build file's lines are exactly
the fixed pre-ports lines with, spliced in before the final blank line and
CMD directive, one `EXPOSE p` line per occurrence of each port `p ≠ 8000`
of `environment.ports`, in order — duplicates kept, ports equal to 8000
contributing nothing; the splice point sits directly after the base
`EXPOSE 8000` directive, which occurs exactly once in the pre-ports lines. -/
theorem C8_build_file_ports_amended (ir : IntentIR)
    (h : ir.implementation.language = "python" ∨
         ir.implementation.language = "node") :
    generate_dockerfile_lines ir
      = (dockerfile_pre_ports_lines ir).take
          ((dockerfile_pre_ports_lines ir).length - 2)
        ++ ((ir.environment.ports.filter (fun p => p ≠ 8000)).map
            (fun p => "EXPOSE " ++ toString p))
        ++ (dockerfile_pre_ports_lines ir).drop
          ((dockerfile_pre_ports_lines ir).length - 2) ∧
    ((dockerfile_pre_ports_lines ir).take
        ((dockerfile_pre_ports_lines ir).length - 2)).getLast?
      = some "EXPOSE 8000" ∧
    (dockerfile_pre_ports_lines ir).count "EXPOSE 8000" = 1 ∧
    (dockerfile_pre_ports_lines ir).drop
        ((dockerfile_pre_ports_lines ir).length - 2)
      = ["", if ir.implementation.language = "python"
             then "CMD [\"python\", \"app.py\"]"
             else "CMD [\"node\", \"app.js\"]"] := by
  rcases h with h | h
  · have hsp : dockerfile_pre_ports_lines ir
        = (["# Auto-generated Dockerfile for: " ++ ir.intent.name,
            "FROM " ++ ir.environment.base_image, "", "WORKDIR /app", ""]
           ++ (if (dockerfile_deps ir).isEmpty then []
               else ["RUN pip install --no-cache-dir " ++
                       String.intercalate " " (dockerfile_deps ir), ""])
           ++ ["COPY app.py .", "", "EXPOSE 8000"])
          ++ ["", "CMD [\"python\", \"app.py\"]"] := by
      simp [dockerfile_pre_ports_lines, h]
    rw [hsp]
    have hlen : ∀ front : List String,
        (front ++ ["", "CMD [\"python\", \"app.py\"]"]).length - 2 = front.length := by
      intro front
      simp
    rw [hlen, List.take_left, List.drop_left]
    refine ⟨?_, ?_, ?_, ?_⟩
    · unfold generate_dockerfile_lines
      rw [hsp]
      exact foldl_insertNeg2_splice _ _ _ rfl
    · rw [List.getLast?_append_of_ne_nil _ (by simp)]
      rfl
    · have h1 := Ne.symm (hdr_ne_expose ir.intent.name)
      have h2 := Ne.symm (from_ne_expose ir.environment.base_image)
      have h3 := Ne.symm (runpip_ne_expose
        (String.intercalate " " (dockerfile_deps ir)))
      by_cases hd : (dockerfile_deps ir).isEmpty <;>
        simp [hd, List.count_append, List.count_cons, h1, h2, h3]
    · simp [h]
  · have hsp : dockerfile_pre_ports_lines ir
        = (["# Auto-generated Dockerfile for: " ++ ir.intent.name,
            "FROM " ++ ir.environment.base_image, "", "WORKDIR /app", ""]
           ++ ["COPY package*.json ./", "RUN npm install", "", "COPY . .", "",
               "EXPOSE 8000"])
          ++ ["", "CMD [\"node\", \"app.js\"]"] := by
      simp [dockerfile_pre_ports_lines, h]
    rw [hsp]
    have hlen : ∀ front : List String,
        (front ++ ["", "CMD [\"node\", \"app.js\"]"]).length - 2 = front.length := by
      intro front
      simp
    rw [hlen, List.take_left, List.drop_left]
    refine ⟨?_, ?_, ?_, ?_⟩
    · unfold generate_dockerfile_lines
      rw [hsp]
      exact foldl_insertNeg2_splice _ _ _ rfl
    · rw [List.getLast?_append_of_ne_nil _ (by simp)]
      rfl
    · have h1 := Ne.symm (hdr_ne_expose ir.intent.name)
      have h2 := Ne.symm (from_ne_expose ir.environment.base_image)
      simp [List.count_append, List.count_cons, h1, h2]
    · have hne : ir.implementation.language ≠ "python" := by
        rw [h]
        decide
      simp [hne]

/-- Witness for the amended C8 at a python IR with `ports = [9001, 8000,
9001]`: the splice equation instantiates to exactly two `EXPOSE 9001` lines
(one per occurrence, the 8000 entry contributing nothing), and the
pre-ports lines hold exactly one `EXPOSE 8000`. -/
theorem C8_build_file_ports_amended_witness :
    generate_dockerfile_lines { IntentIR.mkFresh "w8" "t" with
        environment := { ports := [9001, 8000, 9001] },
        implementation := { language := "python", framework := Option.none,
                            actions := [] } }
      = (dockerfile_pre_ports_lines { IntentIR.mkFresh "w8" "t" with
            environment := { ports := [9001, 8000, 9001] },
            implementation := { language := "python", framework := Option.none,
                                actions := [] } }).take 8
        ++ ["EXPOSE 9001", "EXPOSE 9001"]
        ++ ["", "CMD [\"python\", \"app.py\"]"] ∧
    (dockerfile_pre_ports_lines { IntentIR.mkFresh "w8" "t" with
        environment := { ports := [9001, 8000, 9001] },
        implementation := { language := "python", framework := Option.none,
                            actions := [] } }).count "EXPOSE 8000" = 1 := by
  have h := C8_build_file_ports_amended { IntentIR.mkFresh "w8" "t" with
      environment := { ports := [9001, 8000, 9001] },
      implementation := { language := "python", framework := Option.none,
                          actions := [] } } (Or.inl rfl)
  refine ⟨?_, h.2.2.1⟩
  have h1 := h.1
  rw [h.2.2.2] at h1
  simpa using h1

end Amen
